import Mathlib

/-
Verification of the renc-rs wrapper (src/src/lib.rs): a Rust safety layer
around an external scripting runtime reached through renc_sys.

Modelling conventions:
- Runtime value handles (raw pointers *mut Reb_Value) are natural numbers,
  allocated from a fresh-handle counter that each operation threads through.
- Every foreign call (rebStartup, rebShutdown, rebValue, rebValueQ, rebDid,
  rebRelease, rebSpell, rebSpellQ, rebFree) is recorded as an event, so that
  theorems can speak about which calls a code path performs and how often a
  handle is released.
- The foreign runtime itself is external to the repository; its observable
  behaviour (which value an evaluation yields, what the error? and block?
  predicates hold of, what spelling a string value has) is modelled from the
  spec as the abstract value type RVal and the oracle result parameter r
  passed to each evaluate-family function.
- Rust panics (unwrap on Err/None, explicit panic) appear as Outcome.panic;
  native faults of the foreign runtime that the wrapper does not trap appear
  as Outcome.fault.
- Rust Strings read back from the runtime are modelled at the byte level
  (List Nat), since the UTF-8 validity check of CStr::to_str is byte-level.
-/

/-- Raw runtime value handle: models a *mut Reb_Value pointer. -/
abbrev Handle := Nat

/-- Outcome of running a piece of wrapper code: normal return, Err return,
Rust panic (with its message), or an untrapped native fault in the foreign
runtime. -/
inductive Outcome (ε α : Type) where
  | ok (a : α)
  | err (e : ε)
  | panic (msg : String)
  | fault

/-- The two-byte end-of-list marker REB_END = [0x80, 0x00] that terminates
every variadic fragment list handed to the foreign evaluator. -/
def REB_END : List Nat := [0x80, 0x00]

/-- An evaluable fragment as passed to the variadic foreign calls: either a
null-terminated UTF-8 text (a CUtf8), or a runtime value handle (a RebValue,
via RebCode::as_const_ptr), or the REB_END marker closing the list. -/
inductive Frag where
  | text (s : String)
  | val (h : Handle)
  | endm

/-- Observable foreign-call events performed by the wrapper. -/
inductive REvent where
  | startup
  | shutdown (clean : Bool)
  | evalV (frags : List Frag)
  | evalQ (frags : List Frag)
  | did (frags : List Frag)
  | release (h : Handle)
  | spell (h : Handle)
  | spellQ (h : Handle)
  | free

/-- Predicate picking out a release event for the given handle. -/
def isReleaseOf (h : Handle) : REvent → Bool
  | .release k => k == h
  | _ => false

/-- Number of rebRelease calls issued for handle h in an event trace. -/
def countRelease (evs : List REvent) (h : Handle) : Nat :=
  (evs.filter (isReleaseOf h)).length

/-- The string contains the null character (byte 0x00 in its UTF-8 bytes;
the null byte occurs in UTF-8 exactly as the encoding of U+0000). -/
def interiorNull (s : String) : Bool :=
  s.data.contains (Char.ofNat 0)

/-- CUtf8 from lib.rs: an owned null-terminated UTF-8 buffer, modelled as
the character sequence of the buffer including the terminator. -/
structure CUtf8 where
  buf : List Char

/-- CUtf8::new from lib.rs: CString::new(s).unwrap(). CString::new fails
with NulError when the input bytes contain 0x00, and unwrap turns that into
a panic; otherwise the null-terminated buffer is produced. -/
def CUtf8.new (s : String) : Outcome Empty CUtf8 :=
  if interiorNull s then
    .panic "called Result::unwrap() on an Err value: NulError"
  else
    .ok ⟨s.data ++ [Char.ofNat 0]⟩

/-- Continuation byte of a multi-byte UTF-8 sequence: 0x80..0xBF. -/
def utf8Cont (b : Nat) : Bool :=
  decide (0x80 ≤ b ∧ b ≤ 0xBF)

/-- Byte-level UTF-8 validity as checked by Rust's str::from_utf8 (used by
CStr::to_str): ASCII, two-byte leads 0xC2..0xDF, three-byte leads with the
0xE0/0xED overlong and surrogate exclusions, four-byte leads with the
0xF0/0xF4 range restrictions. -/
def utf8Valid : List Nat → Bool
  | [] => true
  | b :: rest =>
    if b ≤ 0x7F then utf8Valid rest
    else
      match rest with
      | [] => false
      | c1 :: rest1 =>
        if 0xC2 ≤ b ∧ b ≤ 0xDF then utf8Cont c1 && utf8Valid rest1
        else
          match rest1 with
          | [] => false
          | c2 :: rest2 =>
            if b = 0xE0 then
              decide (0xA0 ≤ c1 ∧ c1 ≤ 0xBF) && utf8Cont c2 && utf8Valid rest2
            else if (0xE1 ≤ b ∧ b ≤ 0xEC) ∨ b = 0xEE ∨ b = 0xEF then
              utf8Cont c1 && utf8Cont c2 && utf8Valid rest2
            else if b = 0xED then
              decide (0x80 ≤ c1 ∧ c1 ≤ 0x9F) && utf8Cont c2 && utf8Valid rest2
            else
              match rest2 with
              | [] => false
              | c3 :: rest3 =>
                if b = 0xF0 then
                  decide (0x90 ≤ c1 ∧ c1 ≤ 0xBF) && utf8Cont c2 && utf8Cont c3
                    && utf8Valid rest3
                else if 0xF1 ≤ b ∧ b ≤ 0xF3 then
                  utf8Cont c1 && utf8Cont c2 && utf8Cont c3 && utf8Valid rest3
                else if b = 0xF4 then
                  decide (0x80 ≤ c1 ∧ c1 ≤ 0x8F) && utf8Cont c2 && utf8Cont c3
                    && utf8Valid rest3
                else false

/-- Bytes of a C string buffer as seen by CStr::from_ptr: the content up to
(excluding) the first null byte. -/
def cstrBytes (l : List Nat) : List Nat :=
  l.takeWhile (fun b => b != 0)

/-- Modelled from the spec: the foreign runtime's values, as far as the
wrapper observes them. The runtime itself (renc_sys and the native
evaluator) is outside src/; spec sections 3, 4.4 and the glossary describe
integers, string-like values spelled in an unquoted and a quoted form
(rebSpell vs rebSpellQ), blocks (one-element sequences used to wrap entrap
results), and error values carrying type/id/message/file fields. Values the
wrapper never inspects are collapsed into the opaque constructor. -/
inductive RVal where
  | integer (i : Int)
  | strval (spelledBytes quotedBytes : List Nat)
  | block (elems : List RVal)
  | errorv (typeF idF messageF fileF : RVal)
  | otherv (tag : Nat)

/-- Modelled from the spec: the runtime's error? predicate, as queried by
rebDid("error?", v). -/
def isError : RVal → Bool
  | .errorv _ _ _ _ => true
  | _ => false

/-- Modelled from the spec: the runtime's block? predicate, as queried by
rebDid("block?", v). -/
def isBlock : RVal → Bool
  | .block _ => true
  | _ => false

/-- Modelled from the spec: rebValue("first", v) on a block yields its
element 0; on an empty block the runtime raises (none = native fault at
this untrapped call site). -/
def firstElem : RVal → Option RVal
  | .block (x :: _) => some x
  | _ => none

/-- Modelled from the spec: field lookup on an error value, as evaluated by
the reflection expression composed of "get in", the error value, and the
quoted field name. Only the four fields the wrapper reads are populated. -/
def errField : RVal → String → Option RVal
  | .errorv t _ _ _, "type" => some t
  | .errorv _ i _ _, "id" => some i
  | .errorv _ _ m _, "message" => some m
  | .errorv _ _ _ f, "file" => some f
  | _, _ => none

/-- Modelled from the spec: rebSpell, the unquoted/literal spelling of a
value as a native byte buffer; abstains (native fault) on values with no
spelling in this model. -/
def spellBytes : RVal → Option (List Nat)
  | .strval sp _ => some sp
  | _ => none

/-- Modelled from the spec: rebSpellQ, the quoted spelling. -/
def spellQBytes : RVal → Option (List Nat)
  | .strval _ q => some q
  | _ => none

/-- RebValue from lib.rs: an owned runtime value handle together with the
runtime value it denotes in the model (the heap is write-once, so each
handle's denotation is fixed at allocation). -/
structure RebValue where
  handle : Handle
  rval : RVal

/-- Drop for RebValue from lib.rs: one rebRelease(self.inner) call. -/
def RebValue.drop (v : RebValue) : List REvent :=
  [.release v.handle]

/-- RebValue::unbox_integer from lib.rs: rebUnboxInteger on the handle.
Behaviour on a non-integer value is defined by the foreign runtime and
treated as a precondition violation (fault). -/
def RebValue.unbox_integer (v : RebValue) : Outcome Empty Int :=
  match v.rval with
  | .integer i => .ok i
  | _ => .fault

/-- RebValue::unbox_string from lib.rs: rebSpell the handle, read the
returned C string (CStr::from_ptr reads up to the first null byte),
convert to str with to_str().unwrap() — a panic when the bytes are not
valid UTF-8, in which case rebFree is never reached — and otherwise copy
to an owned String (kept as its bytes here) and rebFree the buffer. -/
def RebValue.unbox_string (v : RebValue) : Outcome Empty (List Nat) × List REvent :=
  match spellBytes v.rval with
  | none => (.fault, [.spell v.handle])
  | some buf =>
    let bs := cstrBytes buf
    if utf8Valid bs then (.ok bs, [.spell v.handle, .free])
    else (.panic "invalid utf-8 sequence", [.spell v.handle])

/-- RebValue::unbox_string_q from lib.rs: as unbox_string but through
rebSpellQ, the quoted spelling. -/
def RebValue.unbox_string_q (v : RebValue) : Outcome Empty (List Nat) × List REvent :=
  match spellQBytes v.rval with
  | none => (.fault, [.spellQ v.handle])
  | some buf =>
    let bs := cstrBytes buf
    if utf8Valid bs then (.ok bs, [.spellQ v.handle, .free])
    else (.panic "invalid utf-8 sequence", [.spellQ v.handle])

/-- RebEngine::integer from lib.rs: rebInteger(v) allocates a fresh integer
value handle (the runtime constructor is modelled from the spec: it always
succeeds and stores the given integer). The Rust signature takes an i64. -/
def RebEngine.integer (n : Nat) (i : Int) : RebValue × Nat :=
  (⟨n, .integer i⟩, n + 1)

/-- The fragment text built by the format! call in map_field: an
apostrophe (character code 39) followed by the field name. -/
def quoteWord (field : String) : String :=
  String.mk (Char.ofNat 39 :: field.data)

/-- RebEngine::map_field from lib.rs: evaluate the reflection expression
composed of "get in", the value a, and the quoted field name; wrap the
result as a fresh RebValue v, apply the extraction function f to it, and
return the result of f; v is dropped at the end of map_field (also on
unwind when f panics), releasing its handle. -/
def RebEngine.map_field (n : Nat) (a : RebValue) (field : String)
    (f : RebValue → Outcome Empty (List Nat) × List REvent) :
    Outcome Empty (List Nat) × List REvent × Nat :=
  let ev : REvent := .evalV [.text "get in", .val a.handle, .text (quoteWord field), .endm]
  match errField a.rval field with
  | none => (.fault, [ev], n + 1)
  | some fv =>
    let (res, evs) := f ⟨n, fv⟩
    (res, ev :: evs ++ [.release n], n + 1)

/-- Sequencing of panic/fault-propagating steps with event accumulation:
a later step runs only when the earlier returned ok (a Rust panic unwinds
past the rest of the struct literal in from_rebval). -/
def stepB {α β : Type} (r : Outcome Empty α × List REvent × Nat)
    (k : α → Nat → Outcome Empty β × List REvent × Nat) :
    Outcome Empty β × List REvent × Nat :=
  match r with
  | (.ok a, evs, n) =>
    let (o, evs2, n2) := k a n
    (o, evs ++ evs2, n2)
  | (.err e, evs, n) => (Empty.elim e, evs, n)
  | (.panic m, evs, n) => (.panic m, evs, n)
  | (.fault, evs, n) => (.fault, evs, n)

/-- RebError (the RebError::RebError variant) from lib.rs: the decoded,
owned error record. String fields are kept as their UTF-8 bytes. -/
structure RebError where
  type_ : List Nat
  id : List Nat
  message : List Nat
  near : List Nat
  where_ : List Nat
  file : List Nat
  line : Nat

/-- RebError::from_rebval from lib.rs: build the record by evaluating the
struct literal's fields in source order — map_field "type" with
unbox_string_q, map_field "id" with unbox_string_q, map_field "message"
with unbox_string, near = String::new(), where_ = String::new(), map_field
"file" with unbox_string_q, line = 0. -/
def RebError.from_rebval (n : Nat) (e : RebValue) :
    Outcome Empty RebError × List REvent × Nat :=
  stepB (RebEngine.map_field n e "type" (fun v => v.unbox_string_q)) (fun ts n =>
  stepB (RebEngine.map_field n e "id" (fun v => v.unbox_string_q)) (fun ids n =>
  stepB (RebEngine.map_field n e "message" (fun v => v.unbox_string)) (fun ms n =>
  stepB (RebEngine.map_field n e "file" (fun v => v.unbox_string_q)) (fun fs n =>
  (.ok ⟨ts, ids, ms, [], [], fs, 0⟩, [], n)))))

/-- RebEngine::load from lib.rs: CUtf8::new(code) (a panic when code has an
interior null), then rebValueQ(c, REB_END) evaluating the raw source text
with no entrap wrapping; the raw result r of that evaluation is the oracle
parameter. Then a second, separate rebDid("error?", v) call classifies the
result: if an error, decode with RebError::from_rebval on a temporary
RebValue (dropped — hence released — at the end of the statement) and
return Err; otherwise wrap the handle and return Ok. -/
def RebEngine.load (n : Nat) (code : String) (r : RVal) :
    Outcome RebError RebValue × List REvent × Nat :=
  if interiorNull code then
    (.panic "called Result::unwrap() on an Err value: NulError", [], n)
  else
    let v : Handle := n
    let ev0 : List REvent :=
      [.evalQ [.text code, .endm],
       .did [.text "error?", .val v, .endm]]
    if isError r then
      let (d, evD, n2) := RebError.from_rebval (n + 1) ⟨v, r⟩
      match d with
      | .ok e => (.err e, ev0 ++ evD ++ [.release v], n2)
      | .panic m => (.panic m, ev0 ++ evD ++ [.release v], n2)
      | .fault => (.fault, ev0 ++ evD, n2)
      | .err e => Empty.elim e
    else
      (.ok ⟨v, r⟩, ev0, n + 1)

/-- RebEngine::value1 from lib.rs: evaluate rebValue("entrap [", a, "]",
REB_END) — the oracle parameter r is the raw result of that evaluation —
then rebDid("error?", trapped). On error: bind trapped as a RebValue,
decode with RebError::from_rebval, return Err (the binding drops on return,
releasing trapped — also on unwind when decoding panics). Otherwise
rebDid("block?", trapped); if a block, evaluate rebValue("first", trapped)
to extract element 0, rebRelease(trapped), and return the element as Ok;
if not a block, return trapped as-is as Ok. -/
def RebEngine.value1 (n : Nat) (a : Frag) (r : RVal) :
    Outcome RebError RebValue × List REvent × Nat :=
  let trapped : Handle := n
  let ev0 : List REvent :=
    [.evalV [.text "entrap [", a, .text "]", .endm],
     .did [.text "error?", .val trapped, .endm]]
  if isError r then
    let (d, evD, n2) := RebError.from_rebval (n + 1) ⟨trapped, r⟩
    match d with
    | .ok e => (.err e, ev0 ++ evD ++ [.release trapped], n2)
    | .panic m => (.panic m, ev0 ++ evD ++ [.release trapped], n2)
    | .fault => (.fault, ev0 ++ evD, n2)
    | .err e => Empty.elim e
  else
    let ev1 : List REvent := ev0 ++ [.did [.text "block?", .val trapped, .endm]]
    if isBlock r then
      match firstElem r with
      | some x =>
        (.ok ⟨n + 1, x⟩,
         ev1 ++ [.evalV [.text "first", .val trapped, .endm], .release trapped],
         n + 2)
      | none =>
        (.fault, ev1 ++ [.evalV [.text "first", .val trapped, .endm]], n + 2)
    else
      (.ok ⟨trapped, r⟩, ev1, n + 1)

/-- RebEngine::value2 from lib.rs: evaluate rebValue("entrap [", a, b, "]",
REB_END) over the two fragments in sequence, then rebDid("error?",
trapped). On error: return the trapped handle itself, wrapped as a RebValue,
as Err — raw and undecoded. Otherwise the same block-unwrap as value1:
rebDid("block?", trapped); if a block, rebValue("first", trapped),
rebRelease(trapped), return the element as Ok; else return trapped as Ok. -/
def RebEngine.value2 (n : Nat) (a b : Frag) (r : RVal) :
    Outcome RebValue RebValue × List REvent × Nat :=
  let trapped : Handle := n
  let ev0 : List REvent :=
    [.evalV [.text "entrap [", a, b, .text "]", .endm],
     .did [.text "error?", .val trapped, .endm]]
  if isError r then
    (.err ⟨trapped, r⟩, ev0, n + 1)
  else
    let ev1 : List REvent := ev0 ++ [.did [.text "block?", .val trapped, .endm]]
    if isBlock r then
      match firstElem r with
      | some x =>
        (.ok ⟨n + 1, x⟩,
         ev1 ++ [.evalV [.text "first", .val trapped, .endm], .release trapped],
         n + 2)
      | none =>
        (.fault, ev1 ++ [.evalV [.text "first", .val trapped, .endm]], n + 2)
    else
      (.ok ⟨trapped, r⟩, ev1, n + 1)

/-- RebEngine::value3 from lib.rs: rebValue(a, b, c, REB_END) over the
three fragments, with no entrap wrapping and no classification calls; the
raw result is wrapped and returned unconditionally — the return type is
RebValue, with no error case. -/
def RebEngine.value3 (n : Nat) (a b c : Frag) (r : RVal) :
    RebValue × List REvent × Nat :=
  (⟨n, r⟩, [.evalV [a, b, c, .endm]], n + 1)

/-- The process-wide started flag REB_STARTED_UP: AtomicBool, initially
false. -/
structure EngState where
  started : Bool

/-- RebEngine::new from lib.rs: REB_STARTED_UP.compare_and_swap(false,
true, SeqCst) — if the previous value was true, panic without calling
rebStartup; otherwise the flag is now true, rebStartup() runs, and the
engine is returned. -/
def RebEngine.new (s : EngState) : Outcome Empty Unit × List REvent × EngState :=
  if s.started then
    (.panic "Another thread is already running the renc engine", [], s)
  else
    (.ok (), [.startup], ⟨true⟩)

/-- Drop for RebEngine from lib.rs: rebShutdown(true) first, then
REB_STARTED_UP.swap(false, SeqCst) — the flag is cleared in either case,
and if its previous value was false the drop panics. -/
def RebEngine.drop (s : EngState) : Outcome Empty Unit × List REvent × EngState :=
  if s.started then
    (.ok (), [.shutdown true], ⟨false⟩)
  else
    (.panic "Renc engine is not running in this thread", [.shutdown true], ⟨false⟩)

/-- Process state for the engine-lifecycle transition system: the started
flag together with the number of live RebEngine values. -/
structure SysState where
  started : Bool
  live : Nat

/-- Engine lifecycle steps: a non-panicking RebEngine::new creates one live
engine and moves the flag as the code does; dropping one of the live
engines (only a live engine can be dropped) runs Drop for RebEngine
non-panickingly and removes it. Panicking paths abort the process and so
have no successor state. -/
inductive EngStep : SysState → SysState → Prop where
  | new (s : SysState)
      (h : (RebEngine.new ⟨s.started⟩).1 = .ok ()) :
      EngStep s ⟨((RebEngine.new ⟨s.started⟩).2.2).started, s.live + 1⟩
  | drop (s : SysState) (hl : 0 < s.live)
      (h : (RebEngine.drop ⟨s.started⟩).1 = .ok ()) :
      EngStep s ⟨((RebEngine.drop ⟨s.started⟩).2.2).started, s.live - 1⟩

/-- Helper: full evaluation of RebError::from_rebval on an error value whose
four read fields are string values with UTF-8-valid spellings. -/
theorem from_rebval_strval_eq (n : Nat) (e : RebValue)
    (tS tQ iS iQ mS mQ fS fQ : List Nat)
    (h : e.rval = .errorv (.strval tS tQ) (.strval iS iQ) (.strval mS mQ) (.strval fS fQ))
    (ht : utf8Valid (cstrBytes tQ) = true)
    (hi : utf8Valid (cstrBytes iQ) = true)
    (hm : utf8Valid (cstrBytes mS) = true)
    (hf : utf8Valid (cstrBytes fQ) = true) :
    RebError.from_rebval n e =
      (.ok ⟨cstrBytes tQ, cstrBytes iQ, cstrBytes mS, [], [], cstrBytes fQ, 0⟩,
       [.evalV [.text "get in", .val e.handle, .text (quoteWord "type"), .endm],
        .spellQ n, .free, .release n,
        .evalV [.text "get in", .val e.handle, .text (quoteWord "id"), .endm],
        .spellQ (n + 1), .free, .release (n + 1),
        .evalV [.text "get in", .val e.handle, .text (quoteWord "message"), .endm],
        .spell (n + 2), .free, .release (n + 2),
        .evalV [.text "get in", .val e.handle, .text (quoteWord "file"), .endm],
        .spellQ (n + 3), .free, .release (n + 3)],
       n + 4) := by
  simp_arith [RebError.from_rebval, RebEngine.map_field, stepB, h, errField,
    RebValue.unbox_string, RebValue.unbox_string_q, spellBytes, spellQBytes,
    ht, hi, hm, hf]

/-- Helper: full evaluation of value1 on a block result (the entrap
wrapping convention for non-error outcomes). -/
theorem value1_block_eq (n : Nat) (a : Frag) (x : RVal) (l : List RVal) :
    RebEngine.value1 n a (.block (x :: l)) =
      (.ok ⟨n + 1, x⟩,
       [.evalV [.text "entrap [", a, .text "]", .endm],
        .did [.text "error?", .val n, .endm],
        .did [.text "block?", .val n, .endm],
        .evalV [.text "first", .val n, .endm],
        .release n],
       n + 2) := by
  simp [RebEngine.value1, isError, isBlock, firstElem]

/-- Helper: full evaluation of value1 on a non-error, non-block result
(the defensive fallback branch). -/
theorem value1_passthrough_eq (n : Nat) (a : Frag) (r : RVal)
    (hE : isError r = false) (hB : isBlock r = false) :
    RebEngine.value1 n a r =
      (.ok ⟨n, r⟩,
       [.evalV [.text "entrap [", a, .text "]", .endm],
        .did [.text "error?", .val n, .endm],
        .did [.text "block?", .val n, .endm]],
       n + 1) := by
  simp [RebEngine.value1, hE, hB]

/-- Helper: full evaluation of value1 on an error result whose fields
decode without panic. -/
theorem value1_error_eq (n : Nat) (a : Frag)
    (tS tQ iS iQ mS mQ fS fQ : List Nat)
    (ht : utf8Valid (cstrBytes tQ) = true)
    (hi : utf8Valid (cstrBytes iQ) = true)
    (hm : utf8Valid (cstrBytes mS) = true)
    (hf : utf8Valid (cstrBytes fQ) = true) :
    RebEngine.value1 n a
        (.errorv (.strval tS tQ) (.strval iS iQ) (.strval mS mQ) (.strval fS fQ)) =
      (.err ⟨cstrBytes tQ, cstrBytes iQ, cstrBytes mS, [], [], cstrBytes fQ, 0⟩,
       [.evalV [.text "entrap [", a, .text "]", .endm],
        .did [.text "error?", .val n, .endm],
        .evalV [.text "get in", .val n, .text (quoteWord "type"), .endm],
        .spellQ (n + 1), .free, .release (n + 1),
        .evalV [.text "get in", .val n, .text (quoteWord "id"), .endm],
        .spellQ (n + 2), .free, .release (n + 2),
        .evalV [.text "get in", .val n, .text (quoteWord "message"), .endm],
        .spell (n + 3), .free, .release (n + 3),
        .evalV [.text "get in", .val n, .text (quoteWord "file"), .endm],
        .spellQ (n + 4), .free, .release (n + 4),
        .release n],
       n + 5) := by
  simp only [RebEngine.value1, isError, if_true]
  rw [from_rebval_strval_eq (n + 1)
    ⟨n, .errorv (.strval tS tQ) (.strval iS iQ) (.strval mS mQ) (.strval fS fQ)⟩
    tS tQ iS iQ mS mQ fS fQ rfl ht hi hm hf]
  simp_arith [isError]

/-- Helper: full evaluation of value2 on an error result: the raw trapped
handle comes back as Err, with no decoding calls. -/
theorem value2_error_eq (n : Nat) (a b : Frag) (r : RVal)
    (hE : isError r = true) :
    RebEngine.value2 n a b r =
      (.err ⟨n, r⟩,
       [.evalV [.text "entrap [", a, b, .text "]", .endm],
        .did [.text "error?", .val n, .endm]],
       n + 1) := by
  simp [RebEngine.value2, hE]

/-- Helper: full evaluation of value2 on a block result. -/
theorem value2_block_eq (n : Nat) (a b : Frag) (x : RVal) (l : List RVal) :
    RebEngine.value2 n a b (.block (x :: l)) =
      (.ok ⟨n + 1, x⟩,
       [.evalV [.text "entrap [", a, b, .text "]", .endm],
        .did [.text "error?", .val n, .endm],
        .did [.text "block?", .val n, .endm],
        .evalV [.text "first", .val n, .endm],
        .release n],
       n + 2) := by
  simp [RebEngine.value2, isError, isBlock, firstElem]

/-- Helper: full evaluation of value2 on a non-error, non-block result. -/
theorem value2_passthrough_eq (n : Nat) (a b : Frag) (r : RVal)
    (hE : isError r = false) (hB : isBlock r = false) :
    RebEngine.value2 n a b r =
      (.ok ⟨n, r⟩,
       [.evalV [.text "entrap [", a, b, .text "]", .endm],
        .did [.text "error?", .val n, .endm],
        .did [.text "block?", .val n, .endm]],
       n + 1) := by
  simp [RebEngine.value2, hE, hB]

/-- Helper: full evaluation of load on a non-error result. -/
theorem load_ok_eq (n : Nat) (code : String) (r : RVal)
    (hnull : interiorNull code = false) (hE : isError r = false) :
    RebEngine.load n code r =
      (.ok ⟨n, r⟩,
       [.evalQ [.text code, .endm],
        .did [.text "error?", .val n, .endm]],
       n + 1) := by
  simp [RebEngine.load, hnull, hE]

/-- Helper: full evaluation of load on an error result whose fields decode
without panic. -/
theorem load_error_eq (n : Nat) (code : String)
    (tS tQ iS iQ mS mQ fS fQ : List Nat)
    (hnull : interiorNull code = false)
    (ht : utf8Valid (cstrBytes tQ) = true)
    (hi : utf8Valid (cstrBytes iQ) = true)
    (hm : utf8Valid (cstrBytes mS) = true)
    (hf : utf8Valid (cstrBytes fQ) = true) :
    RebEngine.load n code
        (.errorv (.strval tS tQ) (.strval iS iQ) (.strval mS mQ) (.strval fS fQ)) =
      (.err ⟨cstrBytes tQ, cstrBytes iQ, cstrBytes mS, [], [], cstrBytes fQ, 0⟩,
       [.evalQ [.text code, .endm],
        .did [.text "error?", .val n, .endm],
        .evalV [.text "get in", .val n, .text (quoteWord "type"), .endm],
        .spellQ (n + 1), .free, .release (n + 1),
        .evalV [.text "get in", .val n, .text (quoteWord "id"), .endm],
        .spellQ (n + 2), .free, .release (n + 2),
        .evalV [.text "get in", .val n, .text (quoteWord "message"), .endm],
        .spell (n + 3), .free, .release (n + 3),
        .evalV [.text "get in", .val n, .text (quoteWord "file"), .endm],
        .spellQ (n + 4), .free, .release (n + 4),
        .release n],
       n + 5) := by
  simp only [RebEngine.load, isError, hnull, Bool.false_eq_true, if_false, if_true]
  rw [from_rebval_strval_eq (n + 1)
    ⟨n, .errorv (.strval tS tQ) (.strval iS iQ) (.strval mS mQ) (.strval fS fQ)⟩
    tS tQ iS iQ mS mQ fS fQ rfl ht hi hm hf]
  simp_arith [isError, hnull]

/-- C1: the process-wide singleton invariant holds for every Engine
lifecycle: RebEngine::new atomically transitions the started flag from
false to true, and panics without invoking rebStartup when the flag was
already set; Drop for RebEngine invokes rebShutdown and then atomically
clears the flag, panicking when the flag was not set at drop time; hence
in every process history starting from the initial state, at most one live
Engine exists at any time. -/
theorem c1_engine_singleton :
    (RebEngine.new ⟨false⟩ = (.ok (), [.startup], ⟨true⟩)) ∧
    (RebEngine.new ⟨true⟩ =
      (.panic "Another thread is already running the renc engine", [], ⟨true⟩)) ∧
    (RebEngine.drop ⟨true⟩ = (.ok (), [.shutdown true], ⟨false⟩)) ∧
    (RebEngine.drop ⟨false⟩ =
      (.panic "Renc engine is not running in this thread", [.shutdown true], ⟨false⟩)) ∧
    (∀ s : SysState, Relation.ReflTransGen EngStep ⟨false, 0⟩ s → s.live ≤ 1) := by
  refine ⟨rfl, rfl, rfl, rfl, ?_⟩
  have key : ∀ t : SysState, Relation.ReflTransGen EngStep ⟨false, 0⟩ t →
      t.live = (if t.started then 1 else 0) := by
    intro t ht
    induction ht with
    | refl => rfl
    | @tail u w hsteps hstep ih =>
      cases hstep with
      | new hu =>
        have hu2 : u.started = false := by
          cases hs : u.started
          · rfl
          · rw [hs] at hu
            simp [RebEngine.new] at hu
        rw [hu2] at ih hu ⊢
        simp [RebEngine.new] at ih ⊢
        omega
      | drop hl hu =>
        have hu2 : u.started = true := by
          cases hs : u.started
          · rw [hs] at hu
            simp [RebEngine.drop] at hu
          · rfl
        rw [hu2] at ih hu ⊢
        simp [RebEngine.drop] at ih ⊢
        omega
  intro s h
  have hk := key s h
  cases hs : s.started <;> rw [hs] at hk <;> simp at hk <;> omega

/-- Witness for C1: after one successful engine construction from the
initial state, the reached state has one live engine, within the bound. -/
theorem c1_engine_singleton_witness : (⟨true, 1⟩ : SysState).live ≤ 1 :=
  c1_engine_singleton.2.2.2.2 ⟨true, 1⟩
    (Relation.ReflTransGen.single (EngStep.new ⟨false, 0⟩ rfl))

/-- C5: value3(a, b, c) evaluates the three fragments with no entrap
wrapping and performs no error classification (the single foreign call is
the plain evaluation of a, b, c, with no error? or block? query and no
release), and unconditionally returns the raw resulting Value; its return
type (RebValue, not a Result) has no error case. -/
theorem c5_value3_raw (n : Nat) (a b c : Frag) (r : RVal) :
    ((RebEngine.value3 n a b c r).1 = ⟨n, r⟩) ∧
    ((RebEngine.value3 n a b c r).2.1 = [.evalV [a, b, c, .endm]]) ∧
    (∀ h : Handle, countRelease (RebEngine.value3 n a b c r).2.1 h = 0) :=
  ⟨rfl, rfl, fun _ => rfl⟩

/-- C7: for all integers i in the i64 range of the constructor's argument,
engine.integer(i).unbox_integer() yields i back (the wrapper passes the
value through the runtime constructor and unboxer unchanged). -/
theorem c7_integer_roundtrip (n : Nat) (i : Int)
    (_h1 : -(2 ^ 63) ≤ i) (_h2 : i < 2 ^ 63) :
    ((RebEngine.integer n i).1).unbox_integer = .ok i := rfl

/-- Witness for C7: round trip at i = 42. -/
theorem c7_integer_roundtrip_witness :
    ((RebEngine.integer 0 42).1).unbox_integer = .ok 42 :=
  c7_integer_roundtrip 0 42 (by decide) (by decide)

/-- C9: CUtf8::new(s) panics exactly when s contains an interior null
byte (the unwrap of CString::new), and otherwise succeeds with a
null-terminated buffer. -/
theorem c9_cutf8_new (s : String) :
    (interiorNull s = true →
      CUtf8.new s = .panic "called Result::unwrap() on an Err value: NulError") ∧
    (interiorNull s = false →
      CUtf8.new s = .ok ⟨s.data ++ [Char.ofNat 0]⟩) := by
  constructor <;> intro h <;> simp [CUtf8.new, h]

/-- Witness for C9: a null byte inside "a\x00b" panics the constructor;
"ab" without one yields the terminated buffer. -/
theorem c9_cutf8_new_witness :
    (CUtf8.new (String.mk [Char.ofNat 97, Char.ofNat 0, Char.ofNat 98]) =
      .panic "called Result::unwrap() on an Err value: NulError") ∧
    (CUtf8.new (String.mk [Char.ofNat 97, Char.ofNat 98]) =
      .ok ⟨[Char.ofNat 97, Char.ofNat 98, Char.ofNat 0]⟩) :=
  ⟨(c9_cutf8_new _).1 (by decide), (c9_cutf8_new _).2 (by decide)⟩

/-- C10: unbox_string and unbox_string_q panic exactly when the byte
sequence obtained from the runtime's spell call (rebSpell resp. rebSpellQ,
read as a C string) is not valid UTF-8 — in which case the buffer is not
freed — and on valid UTF-8 return an owned copy of the bytes and free the
runtime-allocated buffer. -/
theorem c10_unbox_string_utf8 (v : RebValue) (sp q : List Nat)
    (h : v.rval = .strval sp q) :
    (utf8Valid (cstrBytes sp) = false →
      v.unbox_string = (.panic "invalid utf-8 sequence", [.spell v.handle])) ∧
    (utf8Valid (cstrBytes sp) = true →
      v.unbox_string = (.ok (cstrBytes sp), [.spell v.handle, .free])) ∧
    (utf8Valid (cstrBytes q) = false →
      v.unbox_string_q = (.panic "invalid utf-8 sequence", [.spellQ v.handle])) ∧
    (utf8Valid (cstrBytes q) = true →
      v.unbox_string_q = (.ok (cstrBytes q), [.spellQ v.handle, .free])) := by
  refine ⟨?_, ?_, ?_, ?_⟩ <;> intro hu <;>
    simp [RebValue.unbox_string, RebValue.unbox_string_q, spellBytes, spellQBytes,
      h, hu]

/-- Witness for C10: the lone byte 0xFF is invalid UTF-8 and panics the
unquoted extraction; the byte 0x41 is valid and is returned and freed by
the quoted extraction. -/
theorem c10_unbox_string_utf8_witness :
    (RebValue.unbox_string ⟨5, .strval [0xFF] [0x41]⟩ =
      (.panic "invalid utf-8 sequence", [.spell 5])) ∧
    (RebValue.unbox_string_q ⟨5, .strval [0xFF] [0x41]⟩ =
      (.ok [0x41], [.spellQ 5, .free])) :=
  ⟨(c10_unbox_string_utf8 _ [0xFF] [0x41] rfl).1 (by decide),
   (c10_unbox_string_utf8 _ [0xFF] [0x41] rfl).2.2.2 (by decide)⟩

/-- Helper: boolean equality of naturals under a common left summand. -/
theorem beq_nat_shift (n j k : Nat) : (n + j == n + k) = (j == k) := by
  by_cases h : j = k
  · subst h; simp
  · have h2 : n + j ≠ n + k := by omega
    simp [beq_iff_eq, h, h2]

/-- Helper: a natural differs from itself plus a nonzero offset. -/
theorem beq_nat_self_add (n k : Nat) (h : k ≠ 0) : (n == n + k) = false := by
  have h2 : n ≠ n + k := by omega
  simp [beq_iff_eq, h2]

/-- Helper: a natural plus a nonzero offset differs from itself. -/
theorem beq_nat_add_self (n k : Nat) (h : k ≠ 0) : (n + k == n) = false := by
  have h2 : n + k ≠ n := by omega
  simp [beq_iff_eq, h2]

/-- C2: value1(a) evaluates the fragment wrapped in entrap [ ... ]; when
error? holds of the result it returns Err with the fully decoded Error
Value (type, id, message, file); otherwise when block? holds it extracts
element 0, releases the outer container, and returns the element as Ok;
otherwise it returns the result as-is as Ok. -/
theorem c2_value1_protocol (n : Nat) (a : Frag) (r : RVal) :
    ((RebEngine.value1 n a r).2.1.head? =
      some (.evalV [.text "entrap [", a, .text "]", .endm])) ∧
    (∀ tS tQ iS iQ mS mQ fS fQ : List Nat,
      r = .errorv (.strval tS tQ) (.strval iS iQ) (.strval mS mQ) (.strval fS fQ) →
      utf8Valid (cstrBytes tQ) = true → utf8Valid (cstrBytes iQ) = true →
      utf8Valid (cstrBytes mS) = true → utf8Valid (cstrBytes fQ) = true →
      (RebEngine.value1 n a r).1 =
        .err ⟨cstrBytes tQ, cstrBytes iQ, cstrBytes mS, [], [], cstrBytes fQ, 0⟩) ∧
    (∀ (x : RVal) (l : List RVal), r = .block (x :: l) →
      (RebEngine.value1 n a r).1 = .ok ⟨n + 1, x⟩ ∧
      REvent.release n ∈ (RebEngine.value1 n a r).2.1) ∧
    (isError r = false → isBlock r = false →
      (RebEngine.value1 n a r).1 = .ok ⟨n, r⟩ ∧
      (RebEngine.value1 n a r).2.1 =
        [.evalV [.text "entrap [", a, .text "]", .endm],
         .did [.text "error?", .val n, .endm],
         .did [.text "block?", .val n, .endm]]) := by
  refine ⟨?_, ?_, ?_, ?_⟩
  · cases hE : isError r with
    | true =>
      simp only [RebEngine.value1, hE, if_true]
      rcases hfr : RebError.from_rebval (n + 1) ⟨n, r⟩ with ⟨d, evD, n2⟩
      cases d with
      | ok e => simp
      | err e => exact e.elim
      | panic m => simp
      | fault => simp
    | false =>
      cases hB : isBlock r with
      | true =>
        cases hfe : firstElem r with
        | some x => simp [RebEngine.value1, hE, hB, hfe]
        | none => simp [RebEngine.value1, hE, hB, hfe]
      | false => simp [RebEngine.value1, hE, hB]
  · intro tS tQ iS iQ mS mQ fS fQ hr ht hi hm hf
    subst hr
    rw [value1_error_eq n a tS tQ iS iQ mS mQ fS fQ ht hi hm hf]
  · intro x l hr
    subst hr
    rw [value1_block_eq n a x l]
    exact ⟨rfl, by simp⟩
  · intro hE hB
    rw [value1_passthrough_eq n a r hE hB]
    exact ⟨rfl, rfl⟩

/-- Witness for C2: a decodable division error yields the decoded record;
the one-element block wrapping of 1 + 1 unwraps to the integer 2. -/
theorem c2_value1_protocol_witness :
    ((RebEngine.value1 0 (.text "1 / 0")
        (.errorv (.strval [116] [84]) (.strval [105] [73])
          (.strval [109] [77]) (.strval [102] [70]))).1 =
      .err ⟨[84], [73], [109], [], [], [70], 0⟩) ∧
    ((RebEngine.value1 0 (.text "1 + 1") (.block [.integer 2])).1 =
      .ok ⟨1, .integer 2⟩) :=
  ⟨(c2_value1_protocol 0 (.text "1 / 0") _).2.1 [116] [84] [105] [73] [109] [77]
      [102] [70] rfl (by decide) (by decide) (by decide) (by decide),
   ((c2_value1_protocol 0 (.text "1 + 1") _).2.2.1 (.integer 2) [] rfl).1⟩

/-- C3: value2(a, b) applies the same entrap/error-check/block-unwrap
protocol as value1 over the two fragments in sequence, but on the error
branch it returns the raw, undecoded trapped value wrapped as a RebValue
(its Err type is RebValue, not RebError), with no decoding calls at all. -/
theorem c3_value2_protocol (n : Nat) (a b : Frag) (r : RVal) :
    ((RebEngine.value2 n a b r).2.1.head? =
      some (.evalV [.text "entrap [", a, b, .text "]", .endm])) ∧
    (isError r = true →
      RebEngine.value2 n a b r =
        (.err ⟨n, r⟩,
         [.evalV [.text "entrap [", a, b, .text "]", .endm],
          .did [.text "error?", .val n, .endm]],
         n + 1)) ∧
    (∀ (x : RVal) (l : List RVal), r = .block (x :: l) →
      (RebEngine.value2 n a b r).1 = .ok ⟨n + 1, x⟩ ∧
      REvent.release n ∈ (RebEngine.value2 n a b r).2.1) ∧
    (isError r = false → isBlock r = false →
      (RebEngine.value2 n a b r).1 = .ok ⟨n, r⟩) := by
  refine ⟨?_, ?_, ?_, ?_⟩
  · cases hE : isError r with
    | true => simp [value2_error_eq n a b r hE]
    | false =>
      cases hB : isBlock r with
      | true =>
        cases hfe : firstElem r with
        | some x => simp [RebEngine.value2, hE, hB, hfe]
        | none => simp [RebEngine.value2, hE, hB, hfe]
      | false => simp [value2_passthrough_eq n a b r hE hB]
  · intro hE
    exact value2_error_eq n a b r hE
  · intro x l hr
    subst hr
    rw [value2_block_eq n a b x l]
    exact ⟨rfl, by simp⟩
  · intro hE hB
    rw [value2_passthrough_eq n a b r hE hB]

/-- Witness for C3: an error result comes back raw as Err with only the
evaluate and error-check calls performed; a one-element block unwraps. -/
theorem c3_value2_protocol_witness :
    (RebEngine.value2 0 (.text "1 + ") (.val 7)
        (.errorv (.otherv 0) (.otherv 1) (.otherv 2) (.otherv 3)) =
      (.err ⟨0, .errorv (.otherv 0) (.otherv 1) (.otherv 2) (.otherv 3)⟩,
       [.evalV [.text "entrap [", .text "1 + ", .val 7, .text "]", .endm],
        .did [.text "error?", .val 0, .endm]],
       1)) ∧
    ((RebEngine.value2 0 (.text "1 + ") (.val 7) (.block [.integer 2])).1 =
      .ok ⟨1, .integer 2⟩) :=
  ⟨(c3_value2_protocol 0 (.text "1 + ") (.val 7) _).2.1 rfl,
   ((c3_value2_protocol 0 (.text "1 + ") (.val 7) _).2.2.1 (.integer 2) [] rfl).1⟩

/-- C4: load(code) evaluates the single source-text fragment directly via
rebValueQ with no entrap wrapping, then issues a second, separate rebDid
call asking whether the result is an error; if so it decodes a structured
Error and returns it as Err, otherwise it returns the wrapped Value as Ok.
In both branches the classification is the post-hoc error? predicate
check (the first trace event is the plain evaluation, the second the
predicate query), not an atomic trap. -/
theorem c4_load_protocol (n : Nat) (code : String) (r : RVal)
    (hnull : interiorNull code = false) :
    ((RebEngine.load n code r).2.1.head? = some (.evalQ [.text code, .endm])) ∧
    ((RebEngine.load n code r).2.1.get? 1 =
      some (.did [.text "error?", .val n, .endm])) ∧
    (isError r = false →
      RebEngine.load n code r =
        (.ok ⟨n, r⟩,
         [.evalQ [.text code, .endm], .did [.text "error?", .val n, .endm]],
         n + 1)) ∧
    (∀ tS tQ iS iQ mS mQ fS fQ : List Nat,
      r = .errorv (.strval tS tQ) (.strval iS iQ) (.strval mS mQ) (.strval fS fQ) →
      utf8Valid (cstrBytes tQ) = true → utf8Valid (cstrBytes iQ) = true →
      utf8Valid (cstrBytes mS) = true → utf8Valid (cstrBytes fQ) = true →
      (RebEngine.load n code r).1 =
        .err ⟨cstrBytes tQ, cstrBytes iQ, cstrBytes mS, [], [], cstrBytes fQ, 0⟩) := by
  have gen : ∀ d evD n2, RebError.from_rebval (n + 1) ⟨n, r⟩ = (d, evD, n2) →
      isError r = true →
      (RebEngine.load n code r).2.1.head? = some (.evalQ [.text code, .endm]) ∧
      (RebEngine.load n code r).2.1.get? 1 =
        some (.did [.text "error?", .val n, .endm]) := by
    intro d evD n2 hfr hE
    simp only [RebEngine.load, hnull, hE, Bool.false_eq_true, if_false, if_true, hfr]
    cases d with
    | ok e => simp
    | err e => exact e.elim
    | panic m => simp
    | fault => simp
  refine ⟨?_, ?_, ?_, ?_⟩
  · cases hE : isError r with
    | true =>
      rcases hfr : RebError.from_rebval (n + 1) ⟨n, r⟩ with ⟨d, evD, n2⟩
      exact (gen d evD n2 hfr hE).1
    | false => simp [load_ok_eq n code r hnull hE]
  · cases hE : isError r with
    | true =>
      rcases hfr : RebError.from_rebval (n + 1) ⟨n, r⟩ with ⟨d, evD, n2⟩
      exact (gen d evD n2 hfr hE).2
    | false => simp [load_ok_eq n code r hnull hE]
  · intro hE
    exact load_ok_eq n code r hnull hE
  · intro tS tQ iS iQ mS mQ fS fQ hr ht hi hm hf
    subst hr
    rw [load_error_eq n code tS tQ iS iQ mS mQ fS fQ hnull ht hi hm hf]

/-- Witness for C4: a non-error evaluation of "3" comes back wrapped as Ok
after the two separate calls; a decodable error comes back as the decoded
Err. -/
theorem c4_load_protocol_witness :
    (RebEngine.load 0 "3" (.integer 3) =
      (.ok ⟨0, .integer 3⟩,
       [.evalQ [.text "3", .endm], .did [.text "error?", .val 0, .endm]],
       1)) ∧
    ((RebEngine.load 0 "1 / 0"
        (.errorv (.strval [116] [84]) (.strval [105] [73])
          (.strval [109] [77]) (.strval [102] [70]))).1 =
      .err ⟨[84], [73], [109], [], [], [70], 0⟩) :=
  ⟨(c4_load_protocol 0 "3" (.integer 3) (by decide)).2.2.1 rfl,
   (c4_load_protocol 0 "1 / 0" _ (by decide)).2.2.2 [116] [84] [105] [73]
     [109] [77] [102] [70] rfl (by decide) (by decide) (by decide) (by decide)⟩

/-- C6: building a RebError from an error value extracts exactly the four
fields type, id, message, file via map_field, applying the quoted
extraction unbox_string_q to type, id and file and the unquoted extraction
unbox_string to message (the decoded type/id/file are the quoted spellings,
the decoded message the unquoted spelling), and leaves near and where_ as
empty strings and line as 0. -/
theorem c6_from_rebval_fields (n : Nat) (e : RebValue)
    (tS tQ iS iQ mS mQ fS fQ : List Nat)
    (h : e.rval = .errorv (.strval tS tQ) (.strval iS iQ) (.strval mS mQ) (.strval fS fQ))
    (ht : utf8Valid (cstrBytes tQ) = true)
    (hi : utf8Valid (cstrBytes iQ) = true)
    (hm : utf8Valid (cstrBytes mS) = true)
    (hf : utf8Valid (cstrBytes fQ) = true) :
    RebError.from_rebval n e =
      (.ok ⟨cstrBytes tQ, cstrBytes iQ, cstrBytes mS, [], [], cstrBytes fQ, 0⟩,
       [.evalV [.text "get in", .val e.handle, .text (quoteWord "type"), .endm],
        .spellQ n, .free, .release n,
        .evalV [.text "get in", .val e.handle, .text (quoteWord "id"), .endm],
        .spellQ (n + 1), .free, .release (n + 1),
        .evalV [.text "get in", .val e.handle, .text (quoteWord "message"), .endm],
        .spell (n + 2), .free, .release (n + 2),
        .evalV [.text "get in", .val e.handle, .text (quoteWord "file"), .endm],
        .spellQ (n + 3), .free, .release (n + 3)],
       n + 4) :=
  from_rebval_strval_eq n e tS tQ iS iQ mS mQ fS fQ h ht hi hm hf

/-- Witness for C6: with distinct quoted and unquoted spellings per field,
the decoded record takes the quoted bytes for type/id/file and the
unquoted bytes for message, with empty near/where_ and line 0. -/
theorem c6_from_rebval_fields_witness :
    (RebError.from_rebval 0
      ⟨9, .errorv (.strval [116] [84]) (.strval [105] [73])
        (.strval [109] [77]) (.strval [102] [70])⟩).1 =
      .ok ⟨[84], [73], [109], [], [], [70], 0⟩ := by
  rw [c6_from_rebval_fields 0
    ⟨9, .errorv (.strval [116] [84]) (.strval [105] [73])
      (.strval [109] [77]) (.strval [102] [70])⟩
    [116] [84] [105] [73] [109] [77] [102] [70] rfl
    (by decide) (by decide) (by decide) (by decide)]
  rfl

/-- C8: release discipline — Drop for RebValue issues exactly one release
for its handle; in the block-unwrap branches of value1 and value2 the outer
trapped container handle is released exactly once inside the call, as the
last foreign call before the extracted element (a distinct fresh handle,
itself released zero times inside the call) is returned as a new Value; the
error branch of value1 releases the trapped handle exactly once (and each
of the four temporary field handles of the decode exactly once); the error
branch of value2 releases nothing inside the call and returns the live
handle as Err (so its single release comes from the caller's Drop). -/
theorem c8_release_once :
    (∀ v : RebValue, RebValue.drop v = [.release v.handle]) ∧
    (∀ (n : Nat) (a : Frag) (x : RVal) (l : List RVal),
      (RebEngine.value1 n a (.block (x :: l))).1 = .ok ⟨n + 1, x⟩ ∧
      countRelease (RebEngine.value1 n a (.block (x :: l))).2.1 n = 1 ∧
      (RebEngine.value1 n a (.block (x :: l))).2.1.getLast? =
        some (.release n) ∧
      countRelease (RebEngine.value1 n a (.block (x :: l))).2.1 (n + 1) = 0) ∧
    (∀ (n : Nat) (a b : Frag) (x : RVal) (l : List RVal),
      (RebEngine.value2 n a b (.block (x :: l))).1 = .ok ⟨n + 1, x⟩ ∧
      countRelease (RebEngine.value2 n a b (.block (x :: l))).2.1 n = 1 ∧
      (RebEngine.value2 n a b (.block (x :: l))).2.1.getLast? =
        some (.release n) ∧
      countRelease (RebEngine.value2 n a b (.block (x :: l))).2.1 (n + 1) = 0) ∧
    (∀ (n : Nat) (a : Frag) (tS tQ iS iQ mS mQ fS fQ : List Nat),
      utf8Valid (cstrBytes tQ) = true → utf8Valid (cstrBytes iQ) = true →
      utf8Valid (cstrBytes mS) = true → utf8Valid (cstrBytes fQ) = true →
      countRelease (RebEngine.value1 n a
        (.errorv (.strval tS tQ) (.strval iS iQ)
          (.strval mS mQ) (.strval fS fQ))).2.1 n = 1 ∧
      countRelease (RebEngine.value1 n a
        (.errorv (.strval tS tQ) (.strval iS iQ)
          (.strval mS mQ) (.strval fS fQ))).2.1 (n + 1) = 1 ∧
      countRelease (RebEngine.value1 n a
        (.errorv (.strval tS tQ) (.strval iS iQ)
          (.strval mS mQ) (.strval fS fQ))).2.1 (n + 2) = 1 ∧
      countRelease (RebEngine.value1 n a
        (.errorv (.strval tS tQ) (.strval iS iQ)
          (.strval mS mQ) (.strval fS fQ))).2.1 (n + 3) = 1 ∧
      countRelease (RebEngine.value1 n a
        (.errorv (.strval tS tQ) (.strval iS iQ)
          (.strval mS mQ) (.strval fS fQ))).2.1 (n + 4) = 1) ∧
    (∀ (n : Nat) (a b : Frag) (r : RVal), isError r = true →
      (RebEngine.value2 n a b r).1 = .err ⟨n, r⟩ ∧
      countRelease (RebEngine.value2 n a b r).2.1 n = 0) := by
  refine ⟨fun v => rfl, ?_, ?_, ?_, ?_⟩
  · intro n a x l
    rw [value1_block_eq n a x l]
    refine ⟨rfl, ?_, rfl, ?_⟩ <;>
      simp [countRelease, isReleaseOf, beq_nat_self_add]
  · intro n a b x l
    rw [value2_block_eq n a b x l]
    refine ⟨rfl, ?_, rfl, ?_⟩ <;>
      simp [countRelease, isReleaseOf, beq_nat_self_add]
  · intro n a tS tQ iS iQ mS mQ fS fQ ht hi hm hf
    rw [value1_error_eq n a tS tQ iS iQ mS mQ fS fQ ht hi hm hf]
    refine ⟨?_, ?_, ?_, ?_, ?_⟩ <;>
      simp [countRelease, isReleaseOf, beq_nat_shift, beq_nat_self_add,
        beq_nat_add_self]
  · intro n a b r hE
    rw [value2_error_eq n a b r hE]
    exact ⟨rfl, rfl⟩

/-- Witness for C8: in the error branch of value1 the trapped handle 0 is
released exactly once; in the error branch of value2 it is not released
inside the call and comes back as the Err value. -/
theorem c8_release_once_witness :
    (countRelease (RebEngine.value1 0 (.text "1 / 0")
      (.errorv (.strval [116] [84]) (.strval [105] [73])
        (.strval [109] [77]) (.strval [102] [70]))).2.1 0 = 1) ∧
    (countRelease (RebEngine.value2 0 (.text "a") (.text "b")
      (.errorv (.otherv 0) (.otherv 1) (.otherv 2) (.otherv 3))).2.1 0 = 0) :=
  ⟨(c8_release_once.2.2.2.1 0 (.text "1 / 0") [116] [84] [105] [73] [109] [77]
      [102] [70] (by decide) (by decide) (by decide) (by decide)).1,
   (c8_release_once.2.2.2.2 0 (.text "a") (.text "b")
     (.errorv (.otherv 0) (.otherv 1) (.otherv 2) (.otherv 3)) rfl).2⟩
